import Mathlib

/-!
# Verification of the smart-stream message dispatch and function-schema code

Shallow embedding of `src/ai_stream/components/messages.py`,
`src/ai_stream/components/assistant.py` and
`src/ai_stream/configurations/function_tools.py`.

Python dictionaries are modelled as association lists preserving insertion
order; a key present in the dict is an entry of the list and Python's
`dict.get` default behaviour is modelled with `Option`.  Code that can raise
(`list.index`, `del` on a missing key, dataclass construction with an invalid
type) returns `Option`, `none` marking the raised exception.  The calls into
`random` are modelled by passing each random draw as an explicit argument.
-/

/-! ## Message registry (`components/messages.py`)

`message_registry` maps each registered class's `__name__` to the class.
The registered classes, in registration order, are the fifteen
`@register_message` classes of `messages.py`; we identify a class by a tag. -/

/-- The fifteen concrete message classes of `messages.py`, one tag per
`@register_message` class. -/
inductive MessageClass where
  | userMessage
  | assistantMessage
  | textInput
  | selectbox
  | slider
  | checkbox
  | dateInput
  | timeInput
  | numberInput
  | textArea
  | lineChart
  | barChart
  | image
  | table
  | markdown
deriving DecidableEq, Repr

/-- `message_registry` of `messages.py`: each `@register_message` class is
stored under its `__name__`, in definition order. -/
def message_registry : List (String × MessageClass) :=
  [("UserMessage", MessageClass.userMessage),
   ("AssistantMessage", MessageClass.assistantMessage),
   ("TextInput", MessageClass.textInput),
   ("Selectbox", MessageClass.selectbox),
   ("Slider", MessageClass.slider),
   ("Checkbox", MessageClass.checkbox),
   ("DateInput", MessageClass.dateInput),
   ("TimeInput", MessageClass.timeInput),
   ("NumberInput", MessageClass.numberInput),
   ("TextArea", MessageClass.textArea),
   ("LineChart", MessageClass.lineChart),
   ("BarChart", MessageClass.barChart),
   ("Image", MessageClass.image),
   ("Table", MessageClass.table),
   ("Markdown", MessageClass.markdown)]

/-- `message_registry.get(class_name)`: dictionary lookup returning `none`
when the key is absent. -/
def registryGet (class_name : String) : Option MessageClass :=
  (message_registry.find? (fun kv => kv.1 == class_name)).map (fun kv => kv.2)

/-! ## Random assistant (`components/assistant.py`) -/

/-- Python `str.split(sep)` for a one-character separator, on the character
list: splits at every occurrence of `sep`, keeping empty segments, and an
empty input gives one empty segment. -/
def pySplitChars (sep : Char) : List Char → List (List Char)
  | [] => [[]]
  | c :: rest =>
      let r := pySplitChars sep rest
      if c == sep then [] :: r
      else
        match r with
        | [] => [[c]]
        | g :: gs => (c :: g) :: gs

/-- Python `str.split(sep)` for a one-character separator. -/
def pySplit (s : String) (sep : Char) : List String :=
  (pySplitChars sep s.toList).map String.mk

/-- Python's ASCII whitespace characters (the ones `str.strip()` removes,
restricted to ASCII). -/
def isPySpace (c : Char) : Bool :=
  c == ' ' || c == '\t' || c == '\n' || c == '\r' || c == '\x0b' || c == '\x0c'

/-- Python `str.strip()`: drop leading and trailing whitespace. -/
def pyStrip (s : String) : String :=
  String.mk (((s.toList.dropWhile isPySpace).reverse.dropWhile isPySpace).reverse)

/-- Python `str.capitalize()`: first character upper-cased, the rest
lower-cased. -/
def pyCapitalize (s : String) : String :=
  match s.toList with
  | [] => ""
  | c :: rest => String.mk (c.toUpper :: rest.map Char.toLower)

/-- Lines 72 and 141 of `assistant.py`:
`"".join(word.capitalize() for word in widget_type.split("_")) + "Message"`. -/
def deriveClassName (widget_type : String) : String :=
  String.join ((pySplit widget_type '_').map pyCapitalize) ++ "Message"

/-- A cell of the fixed demo table (`assistant.py` lines 50-56 mix strings,
ints and floats). -/
inductive TableCell where
  | s (v : String)
  | i (v : Int)
  | f (v : Float)

/-- `widget_data` payload of the output-widget descriptors. -/
inductive WidgetData where
  | chart (rows : List (List Float))
  | imageData (url : String) (caption : String)
  | tableData (cols : List (String × List TableCell))
  | markdownData (content : String)

/-- `widget_config` of an input-widget descriptor: a dict whose possible keys
are `label`, `options`, `min_value`, `max_value`, `default`; an absent key is
`none` / `[]`. -/
structure WidgetConfig where
  label : String
  options : List String
  min_value : Option Int
  max_value : Option Int
  default : Option Int
deriving DecidableEq, Repr

/-- An output-widget descriptor `{"widget_type": ..., "widget_data": ...}`. -/
structure ODescriptor where
  widget_type : String
  widget_data : WidgetData

/-- An input-widget descriptor `{"widget_type": ..., "widget_config": ...}`. -/
structure InDescriptor where
  widget_type : String
  widget_config : WidgetConfig
deriving DecidableEq, Repr

/-- The ten fixed reply templates (`assistant.py` lines 23-34); two
interpolate the user's message. -/
def possible_messages (user_message : String) : List String :=
  ["Thanks for sharing: " ++ user_message,
   "Could you elaborate on that?",
   "Interesting point!",
   "I appreciate your input.",
   "Let's discuss further.",
   "That's a great question.",
   "I see. Tell me more.",
   "You said: " ++ user_message ++ ". Let's explore that.",
   "What makes you say that?",
   "How does that make you feel?"]

/-- The five fixed output-widget descriptors (`assistant.py` lines 39-66).
The two `np.random.randn(20, 3).tolist()` draws are passed in as `chart1`
and `chart2`. -/
def possible_output_widgets (chart1 chart2 : List (List Float)) :
    List ODescriptor :=
  [⟨"line_chart", WidgetData.chart chart1⟩,
   ⟨"bar_chart", WidgetData.chart chart2⟩,
   ⟨"image", WidgetData.imageData "https://via.placeholder.com/150" "A placeholder image"⟩,
   ⟨"table", WidgetData.tableData
      [("Column 1", [TableCell.s "A", TableCell.s "B", TableCell.s "C"]),
       ("Column 2", [TableCell.i 1, TableCell.i 2, TableCell.i 3]),
       ("Column 3", [TableCell.f 4.5, TableCell.f 5.5, TableCell.f 6.5])]⟩,
   ⟨"markdown", WidgetData.markdownData
      "### This is a Markdown header\n\nHere is some **bold** text and *italic* text."⟩]

/-- The eight fixed input-widget descriptors (`assistant.py` lines 87-135). -/
def possible_widgets : List InDescriptor :=
  [⟨"text_input", ⟨"Assistant asks: Please provide your name:", [], none, none, none⟩⟩,
   ⟨"selectbox", ⟨"Assistant asks: Choose your favorite color:",
      ["Red", "Green", "Blue", "Yellow", "Purple", "Orange"], none, none, none⟩⟩,
   ⟨"slider", ⟨"Assistant asks: Rate your experience from 1 to 10:",
      [], some 1, some 10, some 5⟩⟩,
   ⟨"checkbox", ⟨"Assistant asks: Do you agree with the terms?", [], none, none, none⟩⟩,
   ⟨"date_input", ⟨"Assistant asks: Select your birth date:", [], none, none, none⟩⟩,
   ⟨"time_input", ⟨"Assistant asks: What time works best for you?", [], none, none, none⟩⟩,
   ⟨"number_input", ⟨"Assistant asks: Enter a number:", [], some 0, some 100, some 50⟩⟩,
   ⟨"text_area", ⟨"Assistant asks: Please describe your issue in detail:",
      [], none, none, none⟩⟩]

/-- A value returned by `generate_random_response`: either an
`AssistantMessage(content)` or a widget message built by calling the class
found in the registry. -/
inductive MessageVal where
  | assistantText (content : String)
  | outputWidgetMsg (cls : MessageClass) (data : WidgetData)
  | inputWidgetMsg (cls : MessageClass) (config : WidgetConfig) (key : String)

/-- Lines 84-85 of `assistant.py`: `widget_counter += 1` and
`widget_key = f"widget_{widget_counter}"`. -/
def inputWidgetSetup (widget_counter : Nat) : Nat × String :=
  let widget_counter := widget_counter + 1
  (widget_counter, "widget_" ++ toString widget_counter)

/-- Lines 72-81 of `assistant.py`: derive the class name from the selected
output widget's type, look it up in the registry, construct the message or
fall back to the unknown-widget text. -/
def dispatchOutputWidget (widget_type : String) (widget_data : WidgetData)
    (widget_counter : Nat) : MessageVal × Nat :=
  let class_name := deriveClassName widget_type
  match registryGet class_name with
  | some message_class => (MessageVal.outputWidgetMsg message_class widget_data, widget_counter)
  | none => (MessageVal.assistantText "Sorry, I encountered an unknown widget type.",
      widget_counter)

/-- Lines 141-150 of `assistant.py`: same dispatch for the selected input
widget, constructing with `(widget_config, widget_key)`. -/
def dispatchInputWidget (widget_type : String) (widget_config : WidgetConfig)
    (widget_key : String) (widget_counter : Nat) : MessageVal × Nat :=
  let class_name := deriveClassName widget_type
  match registryGet class_name with
  | some message_class =>
      (MessageVal.inputWidgetMsg message_class widget_config widget_key, widget_counter)
  | none => (MessageVal.assistantText "Sorry, I encountered an unknown widget type.",
      widget_counter)

/-- The random draws made by one call of `generate_random_response`:
which of the three response types `random.choice` picks, the index the inner
`random.choice` picks, and (for the output-widget branch) the two
`np.random.randn` draws made while building the descriptor pool. -/
inductive ResponseChoice where
  | output (msgIdx : Fin 10)
  | outputWidget (widgetIdx : Fin 5) (chart1 chart2 : List (List Float))
  | inputWidget (widgetIdx : Fin 8)

/-- `generate_random_response` of `assistant.py`, the random draws passed in
explicitly. Returns the assistant's message and the updated widget counter. -/
def generate_random_response (user_message : String) (widget_counter : Nat)
    (choice : ResponseChoice) : MessageVal × Nat :=
  match choice with
  | ResponseChoice.output msgIdx =>
      let assistant_message :=
        (possible_messages user_message).get (Fin.cast (by rfl) msgIdx)
      (MessageVal.assistantText assistant_message, widget_counter)
  | ResponseChoice.outputWidget widgetIdx chart1 chart2 =>
      let selected_widget :=
        (possible_output_widgets chart1 chart2).get (Fin.cast (by rfl) widgetIdx)
      dispatchOutputWidget selected_widget.widget_type selected_widget.widget_data
        widget_counter
  | ResponseChoice.inputWidget widgetIdx =>
      let p := inputWidgetSetup widget_counter
      let selected_widget := possible_widgets.get (Fin.cast (by rfl) widgetIdx)
      dispatchInputWidget selected_widget.widget_type selected_widget.widget_config
        p.2 p.1

/-- The `widget_type` strings of the output-widget descriptor pool (they do
not depend on the random chart data). -/
def output_widget_types : List String :=
  (possible_output_widgets [] []).map ODescriptor.widget_type

/-- The `widget_type` strings of the input-widget descriptor pool. -/
def input_widget_types : List String :=
  possible_widgets.map InDescriptor.widget_type

/-! ## Function-schema editor (`configurations/function_tools.py`) -/

/-- `PARAM_TYPES` (line 19). -/
def PARAM_TYPES : List String :=
  ["string", "number", "integer", "boolean", "array", "object"]

/-- The `FunctionParameter` dataclass (lines 22-38). -/
structure FunctionParameter where
  name : String
  description : String
  type : String
  required : Bool
  enum : List String
  items_type : String
  type_index : Nat
  items_type_index : Nat
deriving DecidableEq, Repr

/-- Python `list.index(a)`: the first index holding `a`, `none` modelling the
raised `ValueError` when `a` is absent. -/
def pyIndex {α : Type} [BEq α] : List α → α → Option Nat
  | [], _ => none
  | x :: xs, a => if x == a then some 0 else (pyIndex xs a).map (· + 1)

/-- Construction of a `FunctionParameter`, including `__post_init__`
(lines 35-38): the indexes are `PARAM_TYPES.index(...)`, and `list.index`
raises `ValueError` (modelled as `none`) when the value is absent. -/
def FunctionParameter.make (name description type : String) (required : Bool)
    (enum : List String) (items_type : String) : Option FunctionParameter :=
  match pyIndex PARAM_TYPES type, pyIndex PARAM_TYPES items_type with
  | some type_index, some items_type_index =>
      some ⟨name, description, type, required, enum, items_type, type_index, items_type_index⟩
  | _, _ => none

/-- One value of the `properties` dict built by `build_json_schema`:
`{"type", "description"}` plus an optional `"enum"` key and an optional
`"items": {"type": ...}` key (an absent key is `none`). -/
structure PropSchema where
  type : String
  description : String
  enum : Option (List String)
  items : Option String
deriving DecidableEq, Repr

/-- The `parameters` object of an OpenAI function schema:
`{"type": "object", "properties": ..., "required"?: ...}` (the constant
`"type": "object"` pair is left implicit). -/
structure ParametersSchema where
  properties : List (String × PropSchema)
  required : Option (List String)
deriving DecidableEq, Repr

/-- An OpenAI function schema `{"name", "description", "parameters"}` as
built by `build_json_schema` and consumed by
`convert_openai_function_to_aistream_dict`. -/
structure FunctionSchema where
  name : String
  description : String
  parameters : ParametersSchema
deriving DecidableEq, Repr

/-- Python dict insertion `d[k] = v`: replace in place when the key exists,
otherwise append. -/
def dictInsert {α : Type} (d : List (String × α)) (k : String) (v : α) :
    List (String × α) :=
  if d.any (fun kv => kv.1 == k) then
    d.map (fun kv => if kv.1 == k then (k, v) else kv)
  else d ++ [(k, v)]

/-- Lines 116-121 of `build_json_schema`: the property dict emitted for one
named parameter. -/
def buildProp (param : FunctionParameter) : PropSchema :=
  let enumField : Option (List String) :=
    if param.type ∈ ["string", "number", "integer"] then
      if param.enum ≠ [] then some param.enum else none
    else none
  let itemsField : Option String :=
    if param.type == "array" then some param.items_type else none
  ⟨param.type, param.description, enumField, itemsField⟩

/-- One iteration of the `for param in parameters.values()` loop of
`build_json_schema` (lines 113-122): skip unnamed parameters, otherwise
insert the built property under the parameter's name. -/
def buildStep (props : List (String × PropSchema)) (kv : String × FunctionParameter) :
    List (String × PropSchema) :=
  let param := kv.2
  if param.name == "" then props
  else dictInsert props param.name (buildProp param)

/-- `build_json_schema` (lines 107-134).  The Python function also returns
the pretty-printed JSON text of the same object; only the structured object
is modelled. -/
def build_json_schema (function_name : String) (function_description : String)
    (parameters : List (String × FunctionParameter)) : FunctionSchema :=
  let required_params :=
    ((parameters.map Prod.snd).filter (fun param => param.required && param.name != "")).map
      FunctionParameter.name
  let properties := parameters.foldl buildStep []
  ⟨function_name, function_description,
   ⟨properties, if required_params = [] then none else some required_params⟩⟩

/-- The function dict manipulated by the page: keys `schema_name`, `name`,
`description`, `parameters` (and, once `get_function` ran, `id`; `none`
models an absent `id` key). -/
structure FunctionDict where
  schema_name : String
  name : String
  description : String
  parameters : List (String × FunctionParameter)
  id : Option String
deriving DecidableEq, Repr

/-- Modelled from the spec: `create_id` (in `ai_stream/utils`, which is not
under `src/`) generates a fresh opaque id for each converted parameter
("Identified by a generated opaque id within a function's parameter
mapping"); modelled as distinct positional ids. -/
def freshParamIds (params : List FunctionParameter) :
    List (String × FunctionParameter) :=
  params.enum.map (fun ni => ("param_" ++ toString ni.1, ni.2))

/-- The body of the `for param_name, param in parameters["properties"].items()`
loop of `convert_openai_function_to_aistream_dict` (lines 64-74): build one
`FunctionParameter` from one property (`required` flag by membership in the
schema's `required` list, `enum` defaulting to `[]`, item type defaulting to
`"string"`). -/
def convertProp (required : List String) (kv : String × PropSchema) :
    Option FunctionParameter :=
  FunctionParameter.make kv.1 kv.2.description kv.2.type (required.contains kv.1)
    (kv.2.enum.getD []) (kv.2.items.getD "string")

/-- `convert_openai_function_to_aistream_dict` (lines 52-84), on an
already-parsed schema object.  Building a `FunctionParameter` can raise
(modelled by `Option`) when the schema's `type` is outside `PARAM_TYPES`. -/
def convert_openai_function_to_aistream_dict (schema_name : String)
    (schema : FunctionSchema) : Option FunctionDict :=
  let required := schema.parameters.required.getD []
  match schema.parameters.properties.mapM (convertProp required) with
  | some params =>
      some ⟨schema_name, schema.name, schema.description, freshParamIds params, none⟩
  | none => none

/-- `new_function` (lines 87-89). -/
def new_function : FunctionDict :=
  ⟨"NewFunction", "", "", [], none⟩

/-- `add_parameter` (lines 137-149); the fresh `create_id()` is passed in as
`new_id`. -/
def add_parameter (selected_function : FunctionDict) (new_id : String) :
    Option FunctionDict :=
  (FunctionParameter.make "" "" "string" true [] "string").map (fun new_param =>
    ⟨selected_function.schema_name, selected_function.name,
     selected_function.description,
     dictInsert selected_function.parameters new_id new_param,
     selected_function.id⟩)

/-- `remove_parameter` (lines 152-154): `del` of the entry with key
`param_id`; `del` on a missing key raises `KeyError` (modelled as `none`). -/
def remove_parameter (selected_function : FunctionDict) (param_id : String) :
    Option FunctionDict :=
  if selected_function.parameters.any (fun kv => kv.1 == param_id) then
    some ⟨selected_function.schema_name, selected_function.name,
          selected_function.description,
          selected_function.parameters.eraseP (fun kv => kv.1 == param_id),
          selected_function.id⟩
  else none

/-- Line 180 of `parameter_input`:
`[e.strip() for e in enum_input.split(",")] if enum_input else []`. -/
def parse_enum (enum_input : String) : List String :=
  if enum_input = "" then [] else (pySplit enum_input ',').map pyStrip

/-- `parameter_input` (lines 157-200).  The values returned by the form
widgets are passed in explicitly: `new_name`, `new_description`, `new_type`,
`new_required` and `enum_input` are the widgets' outputs, and
`items_type_choice` is the output of the item-type selectbox shown for
array-typed parameters.  `param` and `param_id` only seed the widgets'
default values and keys, which the model does not track. -/
def parameter_input (param : FunctionParameter) (param_id : String)
    (new_name new_description new_type : String) (new_required : Bool)
    (enum_input : String) (items_type_choice : String) : Option FunctionParameter :=
  let new_enum :=
    if new_type ∈ ["string", "number", "integer"] then parse_enum enum_input else []
  let new_items_type :=
    if new_type == "array" then items_type_choice else "string"
  FunctionParameter.make new_name new_description new_type new_required new_enum
    new_items_type

/-- Modelled from the spec: a row of the backing `FunctionsTable`
(`ai_stream/db/aws.py` is not under `src/`).  Per the spec's external
interface: `{id, name: string, used_by: list of string, value:
function schema object}`. -/
structure StoredItem where
  name : String
  used_by : List String
  value : FunctionSchema
deriving Repr

/-- Line 239: `app_state.current_function["id"] = function_id`. -/
def setFunctionId (function_id : String) (f : FunctionDict) : FunctionDict :=
  ⟨f.schema_name, f.name, f.description, f.parameters, some function_id⟩

/-- The reload logic of `get_function` (lines 220-241): the store is the
`FunctionsTable.get` lookup, `none` standing for a raised `DoesNotExist`.
The result is the new `app_state.current_function` (which, expert mode
aside, is also the returned dict); a `none` result models an exception
escaping from the conversion of a fetched item.  The "Used By" display
(lines 232-235) is pure rendering and the expert-mode branch (lines
242-256) returns an edited view without touching
`app_state.current_function`; neither is modelled. -/
def get_function (app_current : FunctionDict) (function_id : String)
    (store : String → Option StoredItem) : Option FunctionDict :=
  if app_current.id.getD "" ≠ function_id then
    match store function_id with
    | some item =>
        (convert_openai_function_to_aistream_dict item.name item.value).map
          (setFunctionId function_id)
    | none => some (setFunctionId function_id new_function)
  else some app_current

/-- `P` holds of the value inside the `Option` (and the `Option` is `some`). -/
def optionSatisfies {α : Type} (P : α → Prop) : Option α → Prop
  | some a => P a
  | none => False

/-- The indexing invariant established by `FunctionParameter.__post_init__`:
the recorded indexes point back at the recorded type strings inside
`PARAM_TYPES`. -/
def paramTypeInvariant (p : FunctionParameter) : Prop :=
  PARAM_TYPES.get? p.type_index = some p.type ∧
  PARAM_TYPES.get? p.items_type_index = some p.items_type

/-- The six user-visible fields of a `FunctionParameter`
(`{name, description, type, required, enum, items_type}`), without the two
derived indexes. -/
def FunctionParameter.core (p : FunctionParameter) :
    String × String × String × Bool × List String × String :=
  (p.name, p.description, p.type, p.required, p.enum, p.items_type)

/-! ## Helper lemmas -/

theorem dispatchOutputWidget_snd (wt : String) (d : WidgetData) (c : Nat) :
    (dispatchOutputWidget wt d c).2 = c := by
  cases h : registryGet (deriveClassName wt) <;> simp [dispatchOutputWidget, h]

theorem dispatchInputWidget_snd (wt : String) (cfg : WidgetConfig) (key : String) (c : Nat) :
    (dispatchInputWidget wt cfg key c).2 = c := by
  cases h : registryGet (deriveClassName wt) <;> simp [dispatchInputWidget, h]

theorem registryGet_eq_none (k : String) (h : k ∉ message_registry.map Prod.fst) :
    registryGet k = none := by
  unfold registryGet
  have hf : message_registry.find? (fun kv => kv.1 == k) = none := by
    rw [List.find?_eq_none]
    intro kv hkv
    simp only [beq_iff_eq]
    intro heq
    exact h (List.mem_map.mpr ⟨kv, hkv, heq⟩)
  rw [hf]
  rfl

/-! ## The claims -/

/-- **C1**: the claim states that for every `widget_type` in the two built-in
descriptor pools the derived class name is a key of `message_registry`, so
the unknown-widget fallback is never taken.  The code contradicts it: the
registry stores the classes under their `__name__`s (`"LineChart"`,
`"TextInput"`, ...), while `generate_random_response` appends the suffix
`"Message"` when deriving the lookup key (`"LineChartMessage"`, ...), so the
lookup fails — and the fallback is taken — for every one of the thirteen
built-in descriptors.  This theorem evaluates the lookup at every pool
element. -/
theorem c1_builtin_lookups_all_fail :
    (output_widget_types ++ input_widget_types).all
      (fun wt => (registryGet (deriveClassName wt)).isNone) = true := by decide

/-- **C2**: `generate_random_response` returns the counter incremented by
exactly 1 when the input-widget category is chosen, the widget key it
derives (lines 84-85) being `"widget_"` followed by the incremented counter,
and returns the counter unchanged for the plain-text and output-widget
categories. -/
theorem c2_counter_and_key (user_message : String) (widget_counter : Nat) :
    (∀ i : Fin 8,
      (generate_random_response user_message widget_counter
        (ResponseChoice.inputWidget i)).2 = widget_counter + 1) ∧
    (inputWidgetSetup widget_counter).2 = "widget_" ++ toString (widget_counter + 1) ∧
    (∀ j : Fin 10,
      (generate_random_response user_message widget_counter
        (ResponseChoice.output j)).2 = widget_counter) ∧
    (∀ k : Fin 5, ∀ chart1 chart2,
      (generate_random_response user_message widget_counter
        (ResponseChoice.outputWidget k chart1 chart2)).2 = widget_counter) := by
  refine ⟨fun i => ?_, rfl, fun j => rfl, fun k chart1 chart2 => ?_⟩
  · simp only [generate_random_response, dispatchInputWidget_snd]
    rfl
  · simp only [generate_random_response, dispatchOutputWidget_snd]

/-- **C5**: for every `widget_type` string whose derived class name is not a
key of `message_registry`, both widget branches of
`generate_random_response` (lines 75-81 and 144-150) return the generic
unknown-widget `AssistantMessage`; the dispatch is a total function, so no
exception reaches the caller. -/
theorem c5_unknown_widget_fallback (widget_type : String)
    (h : deriveClassName widget_type ∉ message_registry.map Prod.fst) :
    (∀ (widget_data : WidgetData) (widget_counter : Nat),
      dispatchOutputWidget widget_type widget_data widget_counter =
        (MessageVal.assistantText "Sorry, I encountered an unknown widget type.",
         widget_counter)) ∧
    (∀ (widget_config : WidgetConfig) (widget_key : String) (widget_counter : Nat),
      dispatchInputWidget widget_type widget_config widget_key widget_counter =
        (MessageVal.assistantText "Sorry, I encountered an unknown widget type.",
         widget_counter)) := by
  have hg := registryGet_eq_none _ h
  constructor <;> intros <;> simp [dispatchOutputWidget, dispatchInputWidget, hg]

/-- Witness for **C5** at the concrete widget type `"my_widget"`. -/
theorem c5_witness :
    deriveClassName "my_widget" ∉ message_registry.map Prod.fst ∧
    dispatchOutputWidget "my_widget" (WidgetData.markdownData "x") 3 =
      (MessageVal.assistantText "Sorry, I encountered an unknown widget type.", 3) ∧
    dispatchInputWidget "my_widget" ⟨"label", [], none, none, none⟩ "widget_4" 4 =
      (MessageVal.assistantText "Sorry, I encountered an unknown widget type.", 4) :=
  ⟨by decide,
   (c5_unknown_widget_fallback "my_widget" (by decide)).1 (WidgetData.markdownData "x") 3,
   (c5_unknown_widget_fallback "my_widget" (by decide)).2 ⟨"label", [], none, none, none⟩
     "widget_4" 4⟩

/-- **C7**: the enum list is derived by splitting the comma-separated input
on commas and stripping whitespace from each piece: `"a, b ,c"` yields
`["a", "b", "c"]` and `""` yields `[]`. -/
theorem c7_enum_parsing :
    parse_enum "a, b ,c" = ["a", "b", "c"] ∧ parse_enum "" = [] :=
  ⟨by decide, rfl⟩

/-- **C10**: for every non-empty enum input the derived list has exactly one
entry per comma-separated segment, and empty segments are kept: `"a,"`
yields `["a", ""]` and `"a,,b"` yields `["a", "", "b"]`. -/
theorem c10_enum_segments :
    (∀ enum_input : String, enum_input ≠ "" →
      (parse_enum enum_input).length = (pySplit enum_input ',').length) ∧
    parse_enum "a," = ["a", ""] ∧ parse_enum "a,,b" = ["a", "", "b"] := by
  refine ⟨fun s hs => ?_, by decide, by decide⟩
  unfold parse_enum
  rw [if_neg hs, List.length_map]

/-- Witness for **C10** at the concrete input `"a,"`. -/
theorem c10_witness :
    ("a," : String) ≠ "" ∧ (parse_enum "a,").length = (pySplit "a," ',').length :=
  ⟨by decide, c10_enum_segments.1 "a," (by decide)⟩

/-- **C6**: for a function id that is not the active one and whose store
lookup raises `DoesNotExist`, `get_function` propagates no error: it sets
the current function to a blank new record (empty function name, schema
name `"NewFunction"`, empty description, empty parameter mapping) tagged
with the requested id. -/
theorem c6_missing_function_new_record (app_current : FunctionDict)
    (function_id : String) (store : String → Option StoredItem)
    (hactive : app_current.id.getD "" ≠ function_id)
    (hmiss : store function_id = none) :
    get_function app_current function_id store =
      some ⟨"NewFunction", "", "", [], some function_id⟩ := by
  unfold get_function
  rw [if_pos hactive, hmiss]
  rfl

/-- Witness for **C6**: an initially empty current function, the id `"f1"`,
and a store with no records. -/
theorem c6_witness :
    (FunctionDict.mk "" "" "" [] none).id.getD "" ≠ "f1" ∧
    get_function ⟨"", "", "", [], none⟩ "f1" (fun _ => none) =
      some ⟨"NewFunction", "", "", [], some "f1"⟩ :=
  ⟨by decide,
   c6_missing_function_new_record ⟨"", "", "", [], none⟩ "f1" (fun _ => none)
     (by decide) rfl⟩

/-- **C8**: removing a parameter id that is present removes exactly that
entry from the mapping — the length drops by one and the id is gone — and
leaves every other entry present with an unchanged value (and the other
fields of the function dict untouched). -/
theorem c8_remove_parameter (selected_function : FunctionDict) (param_id : String)
    (v : FunctionParameter)
    (hkeys : (selected_function.parameters.map Prod.fst).Nodup)
    (hmem : (param_id, v) ∈ selected_function.parameters) :
    optionSatisfies
      (fun g =>
        g.parameters.length + 1 = selected_function.parameters.length ∧
        (∀ w, (param_id, w) ∉ g.parameters) ∧
        (∀ k w, k ≠ param_id →
          ((k, w) ∈ g.parameters ↔ (k, w) ∈ selected_function.parameters)) ∧
        g.schema_name = selected_function.schema_name ∧
        g.name = selected_function.name ∧
        g.description = selected_function.description ∧
        g.id = selected_function.id)
      (remove_parameter selected_function param_id) := by
  obtain ⟨l1, l2, hsplit⟩ := List.append_of_mem hmem
  have hnl1 : ∀ kv ∈ l1, kv.1 ≠ param_id := by
    intro kv hkv heq
    rw [hsplit] at hkeys
    simp only [List.map_append, List.map_cons, List.nodup_append] at hkeys
    exact hkeys.2.2 (heq ▸ List.mem_map_of_mem Prod.fst hkv) (List.mem_cons_self _ _)
  have hnl2 : param_id ∉ l2.map Prod.fst := by
    rw [hsplit] at hkeys
    simp only [List.map_append, List.map_cons, List.nodup_append,
      List.nodup_cons] at hkeys
    exact hkeys.2.1.1
  have hany : selected_function.parameters.any (fun kv => kv.1 == param_id) = true :=
    List.any_eq_true.mpr ⟨(param_id, v), hmem, by simp⟩
  have herase : selected_function.parameters.eraseP (fun kv => kv.1 == param_id) =
      l1 ++ l2 := by
    rw [hsplit, List.eraseP_append_right _ (by intro b hb; simpa using hnl1 b hb),
      List.eraseP_cons_of_pos (by simp)]
  unfold remove_parameter
  rw [if_pos hany, herase]
  refine ⟨?_, ?_, ?_, rfl, rfl, rfl, rfl⟩
  · rw [hsplit]
    simp only [List.length_append, List.length_cons]
    omega
  · intro w hw
    rcases List.mem_append.mp hw with h1 | h2
    · exact hnl1 _ h1 rfl
    · exact hnl2 (List.mem_map_of_mem Prod.fst h2)
  · intro k w hk
    rw [hsplit]
    constructor
    · intro h
      rcases List.mem_append.mp h with h1 | h2
      · exact List.mem_append.mpr (Or.inl h1)
      · exact List.mem_append.mpr (Or.inr (List.mem_cons_of_mem _ h2))
    · intro h
      rcases List.mem_append.mp h with h1 | h2
      · exact List.mem_append.mpr (Or.inl h1)
      · rcases List.mem_cons.mp h2 with h3 | h4
        · exact absurd (congrArg Prod.fst h3) hk
        · exact List.mem_append.mpr (Or.inr h4)

/-- Witness for **C8**: a two-parameter mapping, removing the first id. -/
theorem c8_witness :
    ((FunctionDict.mk "s" "f" "d"
        [("p1", ⟨"a", "", "string", true, [], "string", 0, 0⟩),
         ("p2", ⟨"b", "", "number", false, [], "number", 1, 1⟩)] none).parameters.map
      Prod.fst).Nodup ∧
    ("p1", (⟨"a", "", "string", true, [], "string", 0, 0⟩ : FunctionParameter)) ∈
      (FunctionDict.mk "s" "f" "d"
        [("p1", ⟨"a", "", "string", true, [], "string", 0, 0⟩),
         ("p2", ⟨"b", "", "number", false, [], "number", 1, 1⟩)] none).parameters ∧
    optionSatisfies
      (fun g =>
        g.parameters.length + 1 = 2 ∧
        (∀ w, ("p1", w) ∉ g.parameters) ∧
        (∀ k w, k ≠ "p1" →
          ((k, w) ∈ g.parameters ↔ (k, w) ∈
            [("p1", (⟨"a", "", "string", true, [], "string", 0, 0⟩ : FunctionParameter)),
             ("p2", ⟨"b", "", "number", false, [], "number", 1, 1⟩)])) ∧
        g.schema_name = "s" ∧ g.name = "f" ∧ g.description = "d" ∧ g.id = none)
      (remove_parameter
        ⟨"s", "f", "d",
         [("p1", ⟨"a", "", "string", true, [], "string", 0, 0⟩),
          ("p2", ⟨"b", "", "number", false, [], "number", 1, 1⟩)], none⟩ "p1") :=
  ⟨by decide, by decide,
   c8_remove_parameter
     ⟨"s", "f", "d",
      [("p1", ⟨"a", "", "string", true, [], "string", 0, 0⟩),
       ("p2", ⟨"b", "", "number", false, [], "number", 1, 1⟩)], none⟩
     "p1" ⟨"a", "", "string", true, [], "string", 0, 0⟩ (by decide) (by decide)⟩

theorem optionSatisfies_mono {α : Type} {P Q : α → Prop} (h : ∀ a, P a → Q a) :
    ∀ o, optionSatisfies P o → optionSatisfies Q o
  | some a, hp => h a hp
  | none, hp => hp.elim

theorem pyIndex_get {α : Type} [BEq α] [LawfulBEq α] :
    ∀ (l : List α) (a : α) (i : Nat), pyIndex l a = some i → l.get? i = some a := by
  intro l
  induction l with
  | nil => intro a i h; exact absurd h (by simp [pyIndex])
  | cons x xs ih =>
      intro a i h
      unfold pyIndex at h
      by_cases hx : x == a
      · rw [if_pos hx] at h
        cases h
        simpa using (eq_of_beq hx)
      · rw [if_neg hx] at h
        cases hp : pyIndex xs a with
        | none => rw [hp] at h; cases h
        | some j =>
            rw [hp] at h
            injection h with h'
            subst h'
            simpa using ih a j hp

theorem pyIndex_of_mem {α : Type} [BEq α] [LawfulBEq α] :
    ∀ (l : List α) (a : α), a ∈ l → ∃ i, pyIndex l a = some i := by
  intro l
  induction l with
  | nil => intro a h; cases h
  | cons x xs ih =>
      intro a h
      unfold pyIndex
      by_cases hx : x == a
      · exact ⟨0, by rw [if_pos hx]⟩
      · have hxs : a ∈ xs := by
          rcases List.mem_cons.mp h with h1 | h2
          · exact absurd (by simp [h1]) hx
          · exact h2
        obtain ⟨j, hj⟩ := ih a hxs
        exact ⟨j + 1, by rw [if_neg hx, hj]; rfl⟩

theorem FunctionParameter.make_eq (n d t : String) (r : Bool) (e : List String)
    (it : String) (ti iti : Nat) (hti : pyIndex PARAM_TYPES t = some ti)
    (hiti : pyIndex PARAM_TYPES it = some iti) :
    FunctionParameter.make n d t r e it = some ⟨n, d, t, r, e, it, ti, iti⟩ := by
  unfold FunctionParameter.make
  rw [hti, hiti]

theorem FunctionParameter.make_some (n d t : String) (r : Bool) (e : List String)
    (it : String) (ht : t ∈ PARAM_TYPES) (hit : it ∈ PARAM_TYPES) :
    optionSatisfies (fun p => p.core = (n, d, t, r, e, it) ∧ paramTypeInvariant p)
      (FunctionParameter.make n d t r e it) := by
  obtain ⟨ti, hti⟩ := pyIndex_of_mem PARAM_TYPES t ht
  obtain ⟨iti, hiti⟩ := pyIndex_of_mem PARAM_TYPES it hit
  rw [FunctionParameter.make_eq n d t r e it ti iti hti hiti]
  exact ⟨rfl, pyIndex_get _ _ _ hti, pyIndex_get _ _ _ hiti⟩

theorem FunctionParameter.make_inv (n d t : String) (r : Bool) (e : List String)
    (it : String) (p : FunctionParameter)
    (h : FunctionParameter.make n d t r e it = some p) :
    p.core = (n, d, t, r, e, it) ∧ paramTypeInvariant p := by
  unfold FunctionParameter.make at h
  cases hti : pyIndex PARAM_TYPES t with
  | none => rw [hti] at h; cases h
  | some ti =>
      cases hiti : pyIndex PARAM_TYPES it with
      | none => rw [hti, hiti] at h; cases h
      | some iti =>
          rw [hti, hiti] at h
          cases h
          exact ⟨rfl, pyIndex_get _ _ _ hti, pyIndex_get _ _ _ hiti⟩

theorem mapM_option_mem {α β : Type} (g : α → Option β) :
    ∀ (l : List α) (res : List β), l.mapM g = some res →
      ∀ b ∈ res, ∃ a ∈ l, g a = some b := by
  intro l
  induction l with
  | nil =>
      intro res h b hb
      simp only [List.mapM_nil] at h
      cases h
      cases hb
  | cons a as ih =>
      intro res h b hb
      rw [List.mapM_cons] at h
      cases hga : g a with
      | none => rw [hga] at h; simp at h
      | some c =>
          rw [hga] at h
          cases has : as.mapM g with
          | none => rw [has] at h; simp at h
          | some cs =>
              rw [has] at h
              simp only [Option.bind_some, Option.pure_def] at h
              cases h
              rcases List.mem_cons.mp hb with rfl | hb'
              · exact ⟨a, List.mem_cons_self a as, hga⟩
              · obtain ⟨x, hx, hgx⟩ := ih cs has b hb'
                exact ⟨x, List.mem_cons_of_mem a hx, hgx⟩

theorem mapM_option_exists {α β γ : Type} (g : α → Option β) (u : α → γ) (v : β → γ) :
    ∀ (l : List α), (∀ a ∈ l, optionSatisfies (fun b => v b = u a) (g a)) →
    ∃ res, l.mapM g = some res ∧ res.map v = l.map u := by
  intro l
  induction l with
  | nil => intro _; exact ⟨[], rfl, rfl⟩
  | cons a as ih =>
      intro h
      have ha := h a (List.mem_cons_self a as)
      cases hga : g a with
      | none => rw [hga] at ha; exact ha.elim
      | some b =>
          rw [hga] at ha
          obtain ⟨res, hres, hmap⟩ := ih (fun x hx => h x (List.mem_cons_of_mem a hx))
          refine ⟨b :: res, ?_, ?_⟩
          · rw [List.mapM_cons, hga, hres]; rfl
          · simp only [List.map_cons]
            rw [hmap, show v b = u a from ha]

theorem freshParamIds_map_snd (params : List FunctionParameter) :
    (freshParamIds params).map Prod.snd = params := by
  unfold freshParamIds
  rw [List.map_map]
  exact List.enum_map_snd params

theorem mem_dictInsert {α : Type} (d : List (String × α)) (k : String) (v : α)
    (kv : String × α) (h : kv ∈ dictInsert d k v) : kv ∈ d ∨ kv = (k, v) := by
  unfold dictInsert at h
  by_cases hc : d.any (fun x => x.1 == k)
  · rw [if_pos hc] at h
    obtain ⟨x, hx, hxkv⟩ := List.mem_map.mp h
    by_cases hk : x.1 == k
    · rw [if_pos hk] at hxkv
      exact Or.inr hxkv.symm
    · rw [if_neg hk] at hxkv
      exact Or.inl (hxkv ▸ hx)
  · rw [if_neg hc] at h
    rcases List.mem_append.mp h with h1 | h2
    · exact Or.inl h1
    · simp only [List.mem_singleton] at h2
      exact Or.inr h2

/-- **C9**: every `FunctionParameter` constructed with a `type` and
`items_type` from `PARAM_TYPES` satisfies
`PARAM_TYPES[type_index] = type` and `PARAM_TYPES[items_type_index] =
items_type`, and this invariant holds for every parameter produced by
`convert_openai_function_to_aistream_dict`, by `add_parameter` (whose new
blank parameter always satisfies it), and by `parameter_input` (whose type
selectboxes only offer `PARAM_TYPES`). -/
theorem c9_param_type_invariant :
    (∀ (name description type : String) (required : Bool) (enum : List String)
        (items_type : String), type ∈ PARAM_TYPES → items_type ∈ PARAM_TYPES →
      optionSatisfies paramTypeInvariant
        (FunctionParameter.make name description type required enum items_type)) ∧
    (∀ (schema_name : String) (schema : FunctionSchema) (f : FunctionDict),
      convert_openai_function_to_aistream_dict schema_name schema = some f →
      ∀ kv ∈ f.parameters, paramTypeInvariant kv.2) ∧
    (∀ (selected_function : FunctionDict) (new_id : String) (f : FunctionDict),
      add_parameter selected_function new_id = some f →
      ∀ kv ∈ f.parameters, kv ∈ selected_function.parameters ∨ paramTypeInvariant kv.2) ∧
    (∀ (param : FunctionParameter) (param_id new_name new_description new_type : String)
        (new_required : Bool) (enum_input : String) (items_type_choice : String),
      new_type ∈ PARAM_TYPES → (new_type = "array" → items_type_choice ∈ PARAM_TYPES) →
      optionSatisfies paramTypeInvariant
        (parameter_input param param_id new_name new_description new_type new_required
          enum_input items_type_choice)) := by
  refine ⟨?_, ?_, ?_, ?_⟩
  · intro n d t r e it ht hit
    exact optionSatisfies_mono (fun a ha => ha.2) _
      (FunctionParameter.make_some n d t r e it ht hit)
  · intro sn schema f h kv hkv
    simp only [convert_openai_function_to_aistream_dict] at h
    cases hm : schema.parameters.properties.mapM
        (convertProp (schema.parameters.required.getD [])) with
    | none => rw [hm] at h; cases h
    | some params =>
        rw [hm] at h
        cases h
        have hmem : kv.2 ∈ params := by
          have := List.mem_map_of_mem Prod.snd hkv
          rwa [freshParamIds_map_snd] at this
        obtain ⟨a, _, hga⟩ := mapM_option_mem _ _ _ hm kv.2 hmem
        exact (FunctionParameter.make_inv _ _ _ _ _ _ _ hga).2
  · intro sf new_id f h kv hkv
    have hmk : FunctionParameter.make "" "" "string" true [] "string" =
        some ⟨"", "", "string", true, [], "string", 0, 0⟩ := by decide
    unfold add_parameter at h
    rw [hmk] at h
    cases h
    rcases mem_dictInsert _ _ _ _ hkv with h1 | h2
    · exact Or.inl h1
    · right
      rw [h2]
      show paramTypeInvariant ⟨"", "", "string", true, [], "string", 0, 0⟩
      exact ⟨rfl, rfl⟩
  · intro param param_id nn nd nt nr ei itc hnt hitc
    simp only [parameter_input]
    have hit : (if nt == "array" then itc else "string") ∈ PARAM_TYPES := by
      by_cases ha : nt == "array"
      · rw [if_pos ha]
        exact hitc (by simpa using ha)
      · rw [if_neg ha]
        decide
    exact optionSatisfies_mono (fun a ha => ha.2) _
      (FunctionParameter.make_some _ _ _ _ _ _ hnt hit)

/-- Witness for **C9**: concrete applications of all four parts. -/
theorem c9_witness :
    ("number" ∈ PARAM_TYPES ∧ "array" ∈ PARAM_TYPES) ∧
    optionSatisfies paramTypeInvariant
      (FunctionParameter.make "a" "d" "number" true [] "array") ∧
    optionSatisfies paramTypeInvariant
      (parameter_input ⟨"", "", "string", true, [], "string", 0, 0⟩ "pid" "n" "nd"
        "array" false "x,y" "integer") ∧
    paramTypeInvariant
      (⟨"p", "pd", "string", false, [], "string", 0, 0⟩ : FunctionParameter) :=
  ⟨⟨by decide, by decide⟩,
   c9_param_type_invariant.1 "a" "d" "number" true [] "array" (by decide) (by decide),
   c9_param_type_invariant.2.2.2 ⟨"", "", "string", true, [], "string", 0, 0⟩ "pid" "n"
     "nd" "array" false "x,y" "integer" (by decide) (fun _ => by decide),
   c9_param_type_invariant.2.1 "s" ⟨"fn", "fd", ⟨[("p", ⟨"string", "pd", none, none⟩)], none⟩⟩
     ⟨"s", "fn", "fd", [("param_0", ⟨"p", "pd", "string", false, [], "string", 0, 0⟩)], none⟩
     (by decide) ("param_0", ⟨"p", "pd", "string", false, [], "string", 0, 0⟩) (by decide)⟩

theorem dictInsert_not_key {α : Type} (d : List (String × α)) (k : String) (v : α)
    (h : ∀ kv ∈ d, kv.1 ≠ k) : dictInsert d k v = d ++ [(k, v)] := by
  unfold dictInsert
  rw [if_neg]
  intro hany
  obtain ⟨x, hx, hfx⟩ := List.any_eq_true.mp hany
  exact h x hx (by simpa using hfx)

theorem foldl_buildStep_eq (parameters : List (String × FunctionParameter)) :
    ∀ acc : List (String × PropSchema),
      ((((parameters.map Prod.snd).filter (fun p => p.name != "")).map
        FunctionParameter.name).Nodup) →
      (∀ kv ∈ acc, kv.1 ∉ ((parameters.map Prod.snd).filter (fun p => p.name != "")).map
        FunctionParameter.name) →
      parameters.foldl buildStep acc =
        acc ++ ((parameters.map Prod.snd).filter (fun p => p.name != "")).map
          (fun p => (p.name, buildProp p)) := by
  induction parameters with
  | nil => intro acc _ _; simp
  | cons hd tl ih =>
      intro acc hnodup hacc
      rw [List.foldl_cons]
      by_cases hn : hd.2.name = ""
      · have hfil : (List.map Prod.snd (hd :: tl)).filter (fun p => p.name != "") =
            (tl.map Prod.snd).filter (fun p => p.name != "") := by
          simp [List.filter_cons, hn]
        have hstep : buildStep acc hd = acc := by
          unfold buildStep
          rw [if_pos (by simpa using hn)]
        rw [hstep, hfil]
        rw [hfil] at hnodup hacc
        exact ih acc hnodup hacc
      · have hfil : (List.map Prod.snd (hd :: tl)).filter (fun p => p.name != "") =
            hd.2 :: (tl.map Prod.snd).filter (fun p => p.name != "") := by
          simp [List.filter_cons, hn]
        rw [hfil] at hnodup hacc
        simp only [List.map_cons, List.nodup_cons] at hnodup
        have hstep : buildStep acc hd = acc ++ [(hd.2.name, buildProp hd.2)] := by
          unfold buildStep
          rw [if_neg (by simpa using hn)]
          exact dictInsert_not_key acc hd.2.name (buildProp hd.2)
            (fun kv hkv heq =>
              hacc kv hkv (by rw [List.map_cons]; exact heq ▸ List.mem_cons_self _ _))
        rw [hstep, hfil, List.map_cons]
        have hacc' : ∀ kv ∈ acc ++ [(hd.2.name, buildProp hd.2)],
            kv.1 ∉ ((tl.map Prod.snd).filter (fun p => p.name != "")).map
              FunctionParameter.name := by
          intro kv hkv
          rcases List.mem_append.mp hkv with h1 | h2
          · intro hmem
            exact hacc kv h1 (by rw [List.map_cons]; exact List.mem_cons_of_mem _ hmem)
          · simp only [List.mem_singleton] at h2
            rw [h2]
            exact hnodup.1
        rw [ih (acc ++ [(hd.2.name, buildProp hd.2)]) hnodup.2 hacc']
        simp

theorem buildProp_eq (p : FunctionParameter) :
    buildProp p = ⟨p.type, p.description,
      (if p.type ∈ ["string", "number", "integer"] ∧ p.enum ≠ [] then some p.enum
       else none),
      (if p.type = "array" then some p.items_type else none)⟩ := by
  unfold buildProp
  by_cases h1 : p.type ∈ ["string", "number", "integer"] <;>
    by_cases h2 : p.enum = [] <;>
      by_cases h3 : p.type = "array" <;>
        simp [h1, h2, h3]

theorem contains_iff_mem (a : String) (l : List String) :
    l.contains a = true ↔ a ∈ l := by
  rw [List.contains_iff_exists_mem_beq]
  constructor
  · rintro ⟨b, hb, hbeq⟩
    rwa [eq_of_beq hbeq]
  · intro h
    exact ⟨a, h, by simp⟩

theorem required_contains_eq (parameters : List (String × FunctionParameter))
    (hnames : (((parameters.map Prod.snd).filter (fun p => p.name != "")).map
      FunctionParameter.name).Nodup)
    (p : FunctionParameter)
    (hp : p ∈ (parameters.map Prod.snd).filter (fun q => q.name != "")) :
    (((parameters.map Prod.snd).filter (fun q => q.required && q.name != "")).map
      FunctionParameter.name).contains p.name = p.required := by
  have hpm := List.mem_filter.mp hp
  cases hr : p.required
  · cases hcb : (((parameters.map Prod.snd).filter
        (fun q => q.required && q.name != "")).map FunctionParameter.name).contains p.name
    · rfl
    · exfalso
      obtain ⟨q, hq, hqname⟩ := List.mem_map.mp ((contains_iff_mem _ _).mp hcb)
      have hqm := List.mem_filter.mp hq
      have hq2 := hqm.2
      simp only [Bool.and_eq_true] at hq2
      have hqfil : q ∈ (parameters.map Prod.snd).filter (fun x => x.name != "") :=
        List.mem_filter.mpr ⟨hqm.1, hq2.2⟩
      have : q = p := List.inj_on_of_nodup_map hnames hqfil hp hqname
      rw [this, hr] at hq2
      exact Bool.false_ne_true hq2.1
  · apply (contains_iff_mem _ _).mpr
    apply List.mem_map_of_mem FunctionParameter.name
    exact List.mem_filter.mpr ⟨hpm.1, by simp [hr, hpm.2]⟩

/-- **C4** (amended: for parameter mappings whose non-empty names are
pairwise distinct): the schema's properties are exactly the non-empty-named
parameters, keyed by name in mapping order; each property carries the
parameter's type and description, an `enum` exactly when the type is
string/number/integer and the enum list is non-empty, and an `items` type
exactly when the type is array; the required list is exactly the names of
the non-empty-named parameters flagged required, in mapping order, and the
`required` key is omitted exactly when that list is empty. -/
theorem c4_schema_shape (function_name function_description : String)
    (parameters : List (String × FunctionParameter))
    (hnames : (((parameters.map Prod.snd).filter (fun p => p.name != "")).map
      FunctionParameter.name).Nodup) :
    (build_json_schema function_name function_description parameters).parameters.properties =
      ((parameters.map Prod.snd).filter (fun p => p.name != "")).map
        (fun p => (p.name,
          (⟨p.type, p.description,
            if p.type ∈ ["string", "number", "integer"] ∧ p.enum ≠ [] then some p.enum
            else none,
            if p.type = "array" then some p.items_type else none⟩ : PropSchema))) ∧
    (build_json_schema function_name function_description
        parameters).parameters.required.getD [] =
      ((parameters.map Prod.snd).filter
        (fun param => param.required && param.name != "")).map FunctionParameter.name ∧
    ((build_json_schema function_name function_description
        parameters).parameters.required = none ↔
      ((parameters.map Prod.snd).filter
        (fun param => param.required && param.name != "")).map FunctionParameter.name =
        []) := by
  refine ⟨?_, ?_, ?_⟩
  · show parameters.foldl buildStep [] = _
    rw [foldl_buildStep_eq parameters [] hnames
      (fun kv hkv => absurd hkv (List.not_mem_nil kv))]
    simp only [List.nil_append]
    exact List.map_congr_left (fun p _ => by rw [buildProp_eq])
  · show (if _ = ([] : List String) then none else some _).getD [] = _
    split_ifs with h
    · simp [h]
    · simp
  · show (if _ = ([] : List String) then none else some _) = none ↔ _
    split_ifs with h
    · simp [h]
    · simp [h]

/-- Counterexample for **C4** as stated: with two parameters sharing the
non-empty name `"a"`, the properties dict holds a single entry (the second
insert overwrote the first in place), not one entry per non-empty-named
parameter — the first parameter's property (description `"d1"`) is absent. -/
theorem c4_counterexample :
    (build_json_schema "f" ""
        [("i1", ⟨"a", "d1", "string", true, [], "string", 0, 0⟩),
         ("i2", ⟨"a", "d2", "string", true, [], "string", 0, 0⟩)]).parameters.properties =
      [("a", ⟨"string", "d2", none, none⟩)] ∧
    (([("i1", (⟨"a", "d1", "string", true, [], "string", 0, 0⟩ : FunctionParameter)),
        ("i2", ⟨"a", "d2", "string", true, [], "string", 0, 0⟩)].map Prod.snd).filter
      (fun p => p.name != "")).length = 2 := by
  exact ⟨by decide, by decide⟩

/-- Witness for **C4**: a one-parameter mapping (an array-typed, required
parameter named `"a"` with an enum list and item type `"integer"`). -/
theorem c4_witness :
    ((([("i1", (⟨"a", "d", "array", true, ["e"], "integer", 4, 2⟩ : FunctionParameter))].map
      Prod.snd).filter (fun p => p.name != "")).map FunctionParameter.name).Nodup ∧
    ((build_json_schema "f" "fd"
        [("i1", ⟨"a", "d", "array", true, ["e"], "integer", 4, 2⟩)]).parameters.properties =
      (([("i1", (⟨"a", "d", "array", true, ["e"], "integer", 4, 2⟩ : FunctionParameter))].map
        Prod.snd).filter (fun p => p.name != "")).map
        (fun p => (p.name,
          (⟨p.type, p.description,
            if p.type ∈ ["string", "number", "integer"] ∧ p.enum ≠ [] then some p.enum
            else none,
            if p.type = "array" then some p.items_type else none⟩ : PropSchema))) ∧
      (build_json_schema "f" "fd"
          [("i1", ⟨"a", "d", "array", true, ["e"], "integer", 4, 2⟩)]).parameters.required.getD
          [] =
        (([("i1", (⟨"a", "d", "array", true, ["e"], "integer", 4, 2⟩ : FunctionParameter))].map
          Prod.snd).filter
          (fun param => param.required && param.name != "")).map FunctionParameter.name ∧
      ((build_json_schema "f" "fd"
            [("i1", ⟨"a", "d", "array", true, ["e"], "integer", 4, 2⟩)]).parameters.required =
          none ↔
        (([("i1", (⟨"a", "d", "array", true, ["e"], "integer", 4, 2⟩ :
          FunctionParameter))].map Prod.snd).filter
          (fun param => param.required && param.name != "")).map FunctionParameter.name =
          [])) :=
  ⟨by decide,
   c4_schema_shape "f" "fd" [("i1", ⟨"a", "d", "array", true, ["e"], "integer", 4, 2⟩)]
     (by decide)⟩

theorem buildProp_enum_getD (p : FunctionParameter)
    (he : p.enum ≠ [] → p.type ∈ ["string", "number", "integer"]) :
    (buildProp p).enum.getD [] = p.enum := by
  show (if p.type ∈ ["string", "number", "integer"] then
      (if p.enum ≠ [] then some p.enum else none) else none).getD [] = p.enum
  by_cases h1 : p.type ∈ ["string", "number", "integer"]
  · rw [if_pos h1]
    by_cases h2 : p.enum = []
    · rw [if_neg (not_not_intro h2), h2]
      rfl
    · rw [if_pos h2]
      rfl
  · rw [if_neg h1]
    have h2 : p.enum = [] := not_not.mp (fun hne => h1 (he hne))
    rw [h2]
    rfl

theorem buildProp_items_getD (p : FunctionParameter)
    (hi : p.type ≠ "array" → p.items_type = "string") :
    (buildProp p).items.getD "string" = p.items_type := by
  show (if p.type == "array" then some p.items_type else none).getD "string" = p.items_type
  by_cases h3 : p.type == "array"
  · rw [if_pos h3]
    rfl
  · rw [if_neg h3]
    exact (hi (by simpa using h3)).symm

theorem buildProp_items_mem (p : FunctionParameter) (hitP : p.items_type ∈ PARAM_TYPES)
    (hi : p.type ≠ "array" → p.items_type = "string") :
    (buildProp p).items.getD "string" ∈ PARAM_TYPES := by
  rw [buildProp_items_getD p hi]
  exact hitP

theorem convertProp_core (requiredNames : List String) (kv : String × PropSchema)
    (ht : kv.2.type ∈ PARAM_TYPES) (hit : kv.2.items.getD "string" ∈ PARAM_TYPES) :
    optionSatisfies
      (fun b => b.core = (kv.1, kv.2.description, kv.2.type,
        requiredNames.contains kv.1, kv.2.enum.getD [], kv.2.items.getD "string"))
      (convertProp requiredNames kv) := by
  unfold convertProp
  exact optionSatisfies_mono (fun b hb => hb.1) _
    (FunctionParameter.make_some kv.1 kv.2.description kv.2.type
      (requiredNames.contains kv.1) (kv.2.enum.getD []) (kv.2.items.getD "string") ht hit)

theorem buildProp_u_core (requiredNames : List String) (p : FunctionParameter)
    (he : p.enum ≠ [] → p.type ∈ ["string", "number", "integer"])
    (hi : p.type ≠ "array" → p.items_type = "string")
    (hr : requiredNames.contains p.name = p.required) :
    ((p.name : String), (buildProp p).description, (buildProp p).type,
      requiredNames.contains p.name, (buildProp p).enum.getD [],
      (buildProp p).items.getD "string") = p.core := by
  unfold FunctionParameter.core
  rw [hr, buildProp_enum_getD p he, buildProp_items_getD p hi]
  rfl

/-- **C3** (amended: for parameter mappings whose non-empty names are
pairwise distinct, whose types and item types lie in `PARAM_TYPES`, whose
enum list is empty unless the type is string/number/integer, and whose item
type is the default `"string"` unless the type is array): building a schema
and converting it back yields, for every originally non-empty-named
parameter and in order, a parameter with identical
`{name, description, type, required, enum, items_type}`; parameters with an
empty name are absent from the result. -/
theorem c3_roundtrip (schema_name function_name function_description : String)
    (parameters : List (String × FunctionParameter))
    (hnames : (((parameters.map Prod.snd).filter (fun p => p.name != "")).map
      FunctionParameter.name).Nodup)
    (htypes : ∀ kv ∈ parameters, kv.2.type ∈ PARAM_TYPES)
    (hitemsP : ∀ kv ∈ parameters, kv.2.items_type ∈ PARAM_TYPES)
    (henum : ∀ kv ∈ parameters, kv.2.enum ≠ [] →
      kv.2.type ∈ ["string", "number", "integer"])
    (hitems : ∀ kv ∈ parameters, kv.2.type ≠ "array" → kv.2.items_type = "string") :
    (convert_openai_function_to_aistream_dict schema_name
        (build_json_schema function_name function_description parameters)).map
      (fun f => (f.schema_name, f.name, f.description,
        (f.parameters.map Prod.snd).map FunctionParameter.core)) =
      some (schema_name, function_name, function_description,
        ((parameters.map Prod.snd).filter (fun p => p.name != "")).map
          FunctionParameter.core) := by
  have hval : ∀ p ∈ (parameters.map Prod.snd).filter (fun q => q.name != ""),
      p.type ∈ PARAM_TYPES ∧ p.items_type ∈ PARAM_TYPES ∧
      (p.enum ≠ [] → p.type ∈ ["string", "number", "integer"]) ∧
      (p.type ≠ "array" → p.items_type = "string") := by
    intro p hp
    obtain ⟨kv, hkv, hkv2⟩ := List.mem_map.mp (List.mem_filter.mp hp).1
    exact hkv2 ▸ ⟨htypes kv hkv, hitemsP kv hkv, henum kv hkv, hitems kv hkv⟩
  have hprops : (build_json_schema function_name function_description
      parameters).parameters.properties =
      ((parameters.map Prod.snd).filter (fun p => p.name != "")).map
        (fun p => (p.name, buildProp p)) := by
    show parameters.foldl buildStep [] = _
    rw [foldl_buildStep_eq parameters [] hnames
      (fun kv hkv => absurd hkv (List.not_mem_nil kv))]
    exact List.nil_append _
  have hreq : (build_json_schema function_name function_description
      parameters).parameters.required.getD [] =
      ((parameters.map Prod.snd).filter
        (fun param => param.required && param.name != "")).map FunctionParameter.name := by
    show (if _ = ([] : List String) then none else some _).getD [] = _
    split_ifs with h
    · simp [h]
    · simp
  obtain ⟨res, hres, hmap⟩ := mapM_option_exists
    (convertProp (((parameters.map Prod.snd).filter
      (fun param => param.required && param.name != "")).map FunctionParameter.name))
    (fun kv => ((kv.1 : String), kv.2.description, kv.2.type,
      ((((parameters.map Prod.snd).filter
        (fun param => param.required && param.name != "")).map
        FunctionParameter.name).contains kv.1 : Bool),
      kv.2.enum.getD [], kv.2.items.getD "string"))
    FunctionParameter.core
    (((parameters.map Prod.snd).filter (fun p => p.name != "")).map
      (fun p => (p.name, buildProp p)))
    (by
      intro kv hkv
      obtain ⟨p, hp, rfl⟩ := List.mem_map.mp hkv
      exact convertProp_core _ (p.name, buildProp p) ((hval p hp).1)
        (buildProp_items_mem p (hval p hp).2.1 (hval p hp).2.2.2))
  simp only [convert_openai_function_to_aistream_dict]
  rw [hprops, hreq, hres]
  show some ((schema_name : String), function_name, function_description,
      ((freshParamIds res).map Prod.snd).map FunctionParameter.core) = _
  rw [freshParamIds_map_snd, hmap, List.map_map]
  refine congrArg some ?_
  refine congrArg (fun x => (schema_name, function_name, function_description, x)) ?_
  refine List.map_congr_left (fun p hp => ?_)
  exact buildProp_u_core _ p (hval p hp).2.2.1 (hval p hp).2.2.2
    (required_contains_eq parameters hnames p hp)

/-- Counterexample for **C3** as stated: a single boolean-typed parameter
with the non-empty enum list `["x"]` (constructible, as the conjunct about
`FunctionParameter.make` shows) round-trips to a parameter whose enum list
is empty — `build_json_schema` only emits `enum` for
string/number/integer-typed parameters, so the enum list is not preserved
for every parameter mapping. -/
theorem c3_counterexample :
    FunctionParameter.make "a" "d" "boolean" true ["x"] "string" =
      some ⟨"a", "d", "boolean", true, ["x"], "string", 3, 0⟩ ∧
    (convert_openai_function_to_aistream_dict "s"
        (build_json_schema "fn" "fd"
          [("i1", ⟨"a", "d", "boolean", true, ["x"], "string", 3, 0⟩)])).map
      (fun f => (f.parameters.map Prod.snd).map FunctionParameter.enum) =
      some [[]] := by
  exact ⟨by decide, by decide⟩

/-- Witness for **C3**: a two-parameter mapping — a required string
parameter named `"a"` with enum `["x", "y"]` and an optional array parameter
named `"b"` with item type `"number"` — plus an unnamed parameter that the
round trip drops. -/
theorem c3_witness :
    (((([("i1", (⟨"a", "da", "string", true, ["x", "y"], "string", 0, 0⟩ :
          FunctionParameter)),
        ("i2", ⟨"b", "db", "array", false, [], "number", 4, 1⟩),
        ("i3", ⟨"", "dc", "string", true, [], "string", 0, 0⟩)].map Prod.snd).filter
      (fun p => p.name != "")).map FunctionParameter.name).Nodup) ∧
    (convert_openai_function_to_aistream_dict "s"
        (build_json_schema "fn" "fd"
          [("i1", ⟨"a", "da", "string", true, ["x", "y"], "string", 0, 0⟩),
           ("i2", ⟨"b", "db", "array", false, [], "number", 4, 1⟩),
           ("i3", ⟨"", "dc", "string", true, [], "string", 0, 0⟩)])).map
      (fun f => (f.schema_name, f.name, f.description,
        (f.parameters.map Prod.snd).map FunctionParameter.core)) =
      some ("s", "fn", "fd",
        (([("i1", (⟨"a", "da", "string", true, ["x", "y"], "string", 0, 0⟩ :
            FunctionParameter)),
          ("i2", ⟨"b", "db", "array", false, [], "number", 4, 1⟩),
          ("i3", ⟨"", "dc", "string", true, [], "string", 0, 0⟩)].map Prod.snd).filter
          (fun p => p.name != "")).map FunctionParameter.core) :=
  ⟨by decide,
   c3_roundtrip "s" "fn" "fd"
     [("i1", ⟨"a", "da", "string", true, ["x", "y"], "string", 0, 0⟩),
      ("i2", ⟨"b", "db", "array", false, [], "number", 4, 1⟩),
      ("i3", ⟨"", "dc", "string", true, [], "string", 0, 0⟩)]
     (by decide) (by decide) (by decide) (by decide) (by decide)⟩
